import Mathlib

/-
  Verification of the SensorBoardLiveV1 ingestion endpoint and traffic
  simulator against their natural-language specification.

  The ingestion endpoint (supabase/functions/ingest/index.ts) is embedded as a
  pure function over an in-memory entity store (devices, sensors, readings)
  plus an explicit record of store-failure outcomes (the oracle `Fx`), since
  the handler branches on store errors.  The client-side traffic simulator
  (the SimulatorProvider context) is embedded as explicit state passing over a
  world record holding the running-state map, the set of armed interval
  timers, and a log of reading submissions.  Randomness (Math.random) becomes
  explicit rational parameters in the interval [0, 1).
-/

namespace SensorBoard

/-! ## Entity store data model -/

/-- Row of the devices table, restricted to the columns the ingest handler
selects (`id, user_id`) plus the `api_key` credential it filters on. -/
structure Device where
  id : Nat
  user_id : Nat
  api_key : String
deriving DecidableEq, Repr

/-- Row of the sensors table as created by the ingest handler. -/
structure Sensor where
  id : Nat
  device_id : Nat
  name : String
  type : String
  unit : String
deriving DecidableEq, Repr

/-- Row of the readings table. -/
structure Reading where
  id : Nat
  sensor_id : Nat
  value : ℚ
  timestamp : Nat
deriving DecidableEq, Repr

/-- In-memory entity store. `nextSensorId` and `nextReadingId` model the
store-assigned identities of newly inserted rows. -/
structure Db where
  devices : List Device
  sensors : List Sensor
  readings : List Reading
  nextSensorId : Nat
  nextReadingId : Nat
deriving DecidableEq, Repr

/-- Device-credential lookup:
`from('devices').select('id, user_id').eq('api_key', device_key).maybeSingle()`.
The api_key column is unique, so the first match is the only match. -/
def findDevice (db : Db) (key : String) : Option Device :=
  db.devices.find? (fun d => d.api_key == key)

/-- Sensor lookup by the idempotence key:
`from('sensors').select('id').eq('device_id', ...).eq('name', ...).maybeSingle()`. -/
def findSensor (db : Db) (devId : Nat) (name : String) : Option Sensor :=
  db.sensors.find? (fun s => s.device_id == devId && s.name == name)

/-- Sensor insert performed on first sighting of a name:
`insert({ device_id, name, type: sensor_name, unit: '' })`. -/
def insertSensor (db : Db) (devId : Nat) (name : String) : Db × Sensor :=
  let s : Sensor := ⟨db.nextSensorId, devId, name, name, ""⟩
  ({ db with sensors := db.sensors ++ [s], nextSensorId := db.nextSensorId + 1 }, s)

/-- Reading insert:
`insert({ sensor_id, value, timestamp: new Date().toISOString() })`.
The server clock is the explicit `now` argument. -/
def insertReading (db : Db) (sensorId : Nat) (v : ℚ) (now : Nat) : Db :=
  { db with readings := db.readings ++ [⟨db.nextReadingId, sensorId, v, now⟩],
            nextReadingId := db.nextReadingId + 1 }

/-! ## Ingestion endpoint -/

/-- One entry of the readings array of the request body.  `none` models a
missing or null JSON field. -/
structure RawReading where
  sensor_name : Option String
  value : Option ℚ
deriving DecidableEq, Repr

/-- Parsed request body.  `readings = none` models a missing or non-array
`readings` field. -/
structure Payload where
  device_key : String
  readings : Option (List RawReading)
deriving DecidableEq, Repr

/-- Store operations the handler issues while processing one batch, recorded
as a trace so that theorems can speak about which lookups and writes happen. -/
inductive Op where
  | sensorLookup (devId : Nat) (name : String)
  | sensorInsert (devId : Nat) (name : String)
  | readingInsert (sensorId : Nat) (value : ℚ)
deriving DecidableEq, Repr

/-- Failure outcomes of the store operations of one batch entry.
`sensorInsertErr` models the sensor insert returning an error (for instance a
uniqueness-constraint violation raised by a concurrent first-sighting);
`readingInsertErr` models the reading insert returning an error. -/
structure EntryFx where
  sensorInsertErr : Bool
  readingInsertErr : Bool
deriving DecidableEq, Repr

/-- The all-success outcome: no store operation fails. -/
def noFail : EntryFx := ⟨false, false⟩

/-- Failure outcomes for a whole request: whether the device lookup itself
errors, and the per-entry outcomes (entries beyond the list behave as
`noFail`). -/
structure Fx where
  deviceLookupErr : Bool
  entryFx : List EntryFx
deriving DecidableEq, Repr

/-- The all-success oracle. -/
def noFx : Fx := ⟨false, []⟩

/-- Body of the `for (const reading of readings)` loop of the handler, for one
entry.  Returns the updated store, the number of readings inserted for this
entry (0 or 1), and the trace of store operations attempted.

Source behaviour embedded here:
* `if (!sensor_name || value === undefined || value === null) continue;`
  — note `!sensor_name` is also true for the empty string;
* lookup by `(device_id, name)`; if absent, insert a sensor and on
  `sensorError` log and `continue` (skip the entry, no retry of the lookup);
* insert the reading; on `readingError` log and do not count it, otherwise
  push it onto `insertedReadings`. -/
def processEntry (db : Db) (devId : Nat) (e : RawReading) (fx : EntryFx) (now : Nat) :
    Db × Nat × List Op :=
  match e.sensor_name, e.value with
  | some name, some v =>
    if name = "" then (db, 0, [])
    else
      match findSensor db devId name with
      | some s =>
        if fx.readingInsertErr then
          (db, 0, [Op.sensorLookup devId name, Op.readingInsert s.id v])
        else
          (insertReading db s.id v now, 1,
            [Op.sensorLookup devId name, Op.readingInsert s.id v])
      | none =>
        if fx.sensorInsertErr then
          (db, 0, [Op.sensorLookup devId name, Op.sensorInsert devId name])
        else
          let r := insertSensor db devId name
          if fx.readingInsertErr then
            (r.1, 0, [Op.sensorLookup devId name, Op.sensorInsert devId name,
                      Op.readingInsert r.2.id v])
          else
            (insertReading r.1 r.2.id v now, 1,
              [Op.sensorLookup devId name, Op.sensorInsert devId name,
               Op.readingInsert r.2.id v])
  | _, _ => (db, 0, [])

/-- The whole batch loop: entries are processed in order, each against the
store left by its predecessors; counts and traces accumulate. -/
def ingestLoop (db : Db) (devId : Nat) (entries : List RawReading)
    (fxs : List EntryFx) (now : Nat) : Db × Nat × List Op :=
  match entries with
  | [] => (db, 0, [])
  | e :: rest =>
    let r1 := processEntry db devId e (fxs.headD noFail) now
    let r2 := ingestLoop r1.1 devId rest fxs.tail now
    (r2.1, r1.2.1 + r2.2.1, r1.2.2 ++ r2.2.2)

/-- HTTP-level response of the handler, restricted to the fields the claims
are about. -/
structure IngestResponse where
  status : Nat
  error : Option String
  device_id : Option Nat
  readings_inserted : Option Nat
deriving DecidableEq, Repr

/-- The handler from payload validation onward:
400 when `device_key` is falsy or `readings` is missing or not an array;
401 when the device lookup errors or matches nothing
(`if (deviceError || !device)`); otherwise the batch loop and a 200 reporting
`device_id` and `readings_inserted: insertedReadings.length`. -/
def handlePayload (db : Db) (p : Payload) (fx : Fx) (now : Nat) :
    IngestResponse × Db × List Op :=
  if p.device_key = "" then
    (⟨400, some "Invalid payload. Expected device_key and readings array.",
      none, none⟩, db, [])
  else
    match p.readings with
    | none =>
      (⟨400, some "Invalid payload. Expected device_key and readings array.",
        none, none⟩, db, [])
    | some rs =>
      if fx.deviceLookupErr then
        (⟨401, some "Invalid device key", none, none⟩, db, [])
      else
        match findDevice db p.device_key with
        | none => (⟨401, some "Invalid device key", none, none⟩, db, [])
        | some dev =>
          let r := ingestLoop db dev.id rs fx.entryFx now
          (⟨200, none, some dev.id, some r.2.1⟩, r.1, r.2.2)

/-- An HTTP request as the handler sees it.  `body = none` models a body on
which `req.json()` throws (the thrown exception is caught by the outer
try/catch, which produces the 500 response). -/
structure Request where
  method : String
  body : Option Payload
deriving DecidableEq, Repr

/-- The full `Deno.serve` handler: OPTIONS preflight, 405 for non-POST,
500 via the catch block when the body fails to parse, then `handlePayload`. -/
def serve (db : Db) (req : Request) (fx : Fx) (now : Nat) :
    IngestResponse × Db × List Op :=
  if req.method = "OPTIONS" then (⟨200, none, none, none⟩, db, [])
  else if req.method ≠ "POST" then
    (⟨405, some "Method not allowed", none, none⟩, db, [])
  else
    match req.body with
    | none => (⟨500, some "Internal server error", none, none⟩, db, [])
    | some p => handlePayload db p fx now

/-- The skip-guard of the loop as the code tests it: the entry is processed
exactly when the name is present and non-empty and the value is present. -/
def validEntry (e : RawReading) : Bool :=
  match e.sensor_name, e.value with
  | some name, some _ => !(name == "")
  | _, _ => false

/-- Count used by the wording of the spec sentence behind claim C1: entries
whose `sensor_name` and `value` are both present (no non-emptiness demand). -/
def specPresentCount (rs : List RawReading) : Nat :=
  (rs.filter (fun e => e.sensor_name.isSome && e.value.isSome)).length

/-! ## Helper lemmas about the batch loop -/

/-- Under the all-success outcome, one entry inserts a reading exactly when
the skip-guard admits it. -/
theorem processEntry_noFail_count (db : Db) (devId : Nat) (e : RawReading) (now : Nat) :
    (processEntry db devId e noFail now).2.1 = if validEntry e then 1 else 0 := by
  obtain ⟨sn, v⟩ := e
  cases sn with
  | none => simp [processEntry, validEntry]
  | some name =>
    cases v with
    | none => simp [processEntry, validEntry]
    | some v =>
      by_cases hn : name = ""
      · simp [processEntry, validEntry, hn]
      · cases hfs : findSensor db devId name with
        | none => simp [processEntry, validEntry, hn, hfs, noFail]
        | some s => simp [processEntry, validEntry, hn, hfs, noFail]

/-- Under the all-success oracle the batch count is the number of entries the
skip-guard admits. -/
theorem ingestLoop_noFail_count (devId : Nat) (now : Nat) (entries : List RawReading)
    (db : Db) :
    (ingestLoop db devId entries [] now).2.1 = (entries.filter validEntry).length := by
  induction entries generalizing db with
  | nil => simp [ingestLoop]
  | cons e rest ih =>
    have hcount := processEntry_noFail_count db devId e now
    simp only [ingestLoop, List.headD_nil, List.tail_nil]
    rw [hcount, ih]
    by_cases hv : validEntry e = true
    · simp only [List.filter_cons, hv, if_pos, List.length_cons, if_true]
      omega
    · simp only [Bool.not_eq_true] at hv
      simp [List.filter_cons, hv]

/-- A store used by the concrete evaluations: a single device with id 1,
owner 1 and api_key "k"; no sensors, no readings. -/
def dbOne : Db := ⟨[⟨1, 1, "k"⟩], [], [], 1, 1⟩

/-! ## Claims about the ingestion endpoint -/

/-- Claim C1, counterexample.  The claim counts every entry whose
`sensor_name` and `value` are both present; an entry whose sensor_name is the
empty string has both present, yet the guard `!sensor_name` skips it, so the
200 response reports readings_inserted = 0 while the claim demands 1. -/
theorem C1_counterexample :
    (handlePayload dbOne ⟨"k", some [⟨some "", some 5⟩]⟩ noFx 0).1.status = 200 ∧
    (handlePayload dbOne ⟨"k", some [⟨some "", some 5⟩]⟩ noFx 0).1.readings_inserted =
      some 0 ∧
    specPresentCount [⟨some "", some 5⟩] = 1 := by
  decide

/-- Claim C1 (amended): for every request whose device_key matches a device,
processed with no store failures, the 200 response reports
readings_inserted equal to the number of entries whose sensor_name is present
and non-empty and whose value is present, regardless of how many required
implicit sensor creation. -/
theorem C1_amended_readings_inserted (db : Db) (p : Payload) (now : Nat)
    (rs : List RawReading) (dev : Device)
    (hrs : p.readings = some rs) (hk : p.device_key ≠ "")
    (hdev : findDevice db p.device_key = some dev) :
    (handlePayload db p noFx now).1.status = 200 ∧
    (handlePayload db p noFx now).1.readings_inserted =
      some (rs.filter validEntry).length := by
  simp [handlePayload, if_neg hk, hrs, noFx, hdev, ingestLoop_noFail_count]

/-- Claim C1 witness: a concrete batch with one entry needing implicit sensor
creation and one skipped null-name entry reports readings_inserted = 1. -/
theorem C1_witness :
    (handlePayload dbOne ⟨"k", some [⟨some "temp", some 21⟩, ⟨none, some 3⟩]⟩ noFx 0).1.status = 200 ∧
    (handlePayload dbOne ⟨"k", some [⟨some "temp", some 21⟩, ⟨none, some 3⟩]⟩ noFx 0).1.readings_inserted =
      some (([⟨some "temp", some 21⟩, ⟨none, some 3⟩] : List RawReading).filter validEntry).length :=
  C1_amended_readings_inserted dbOne ⟨"k", some [⟨some "temp", some 21⟩, ⟨none, some 3⟩]⟩ 0
    [⟨some "temp", some 21⟩, ⟨none, some 3⟩] ⟨1, 1, "k"⟩ rfl (by decide) rfl

/-- Claim C5: an unknown device key yields status 401 with error
"Invalid device key", the store is unchanged (no sensor or reading rows
written) and no store operation beyond the device lookup is issued —
whatever the failure oracle says about the rest of the request. -/
theorem C5_unknown_key_401 (db : Db) (p : Payload) (fx : Fx) (now : Nat)
    (rs : List RawReading)
    (hk : p.device_key ≠ "") (hrs : p.readings = some rs)
    (hfind : findDevice db p.device_key = none) :
    (handlePayload db p fx now).1.status = 401 ∧
    (handlePayload db p fx now).1.error = some "Invalid device key" ∧
    (handlePayload db p fx now).2.1 = db ∧
    (handlePayload db p fx now).2.2 = [] := by
  simp only [handlePayload, if_neg hk, hrs]
  cases herr : fx.deviceLookupErr with
  | true => simp
  | false => simp [hfind]

/-- Claim C5 witness: the concrete store with only key "k" rejects key "bad"
with a 401 and no writes. -/
theorem C5_witness :
    (handlePayload dbOne ⟨"bad", some [⟨some "temp", some 1⟩]⟩ noFx 0).1.status = 401 ∧
    (handlePayload dbOne ⟨"bad", some [⟨some "temp", some 1⟩]⟩ noFx 0).1.error =
      some "Invalid device key" ∧
    (handlePayload dbOne ⟨"bad", some [⟨some "temp", some 1⟩]⟩ noFx 0).2.1 = dbOne ∧
    (handlePayload dbOne ⟨"bad", some [⟨some "temp", some 1⟩]⟩ noFx 0).2.2 = [] :=
  C5_unknown_key_401 dbOne ⟨"bad", some [⟨some "temp", some 1⟩]⟩ noFx 0
    [⟨some "temp", some 1⟩] (by decide) rfl rfl

/-- Claim C8: an entry with a missing or null sensor_name or value is skipped
silently — no store operation is issued for it, it contributes nothing to the
count, the store is untouched by it — and the batch continues with the
remaining entries exactly as if the entry were absent. -/
theorem C8_skip_invalid_entry (db : Db) (devId : Nat) (e : RawReading)
    (fx : EntryFx) (now : Nat) (rest : List RawReading) (fxs : List EntryFx)
    (h : e.sensor_name = none ∨ e.value = none) :
    processEntry db devId e fx now = (db, 0, []) ∧
    ingestLoop db devId (e :: rest) (fx :: fxs) now = ingestLoop db devId rest fxs now := by
  obtain ⟨sn, v⟩ := e
  have hskip : processEntry db devId ⟨sn, v⟩ fx now = (db, 0, []) := by
    rcases h with h | h
    · simp only at h; subst h; rfl
    · simp only at h; subst h; cases sn <;> rfl
  refine ⟨hskip, ?_⟩
  simp [ingestLoop, hskip]

/-- Claim C8 witness: a null-name entry before a valid entry leaves the batch
result identical to the batch without it. -/
theorem C8_witness :
    processEntry dbOne 1 ⟨none, some 5⟩ noFail 0 = (dbOne, 0, []) ∧
    ingestLoop dbOne 1 [⟨none, some 5⟩, ⟨some "temp", some 21⟩] [noFail, noFail] 0 =
      ingestLoop dbOne 1 [⟨some "temp", some 21⟩] [noFail] 0 :=
  C8_skip_invalid_entry dbOne 1 ⟨none, some 5⟩ noFail 0
    [⟨some "temp", some 21⟩] [noFail] (Or.inl rfl)

/-- Whatever the store does, the payload handler itself never answers 500:
its statuses are 400, 401 and 200. -/
theorem handlePayload_status_ne_500 (db : Db) (p : Payload) (fx : Fx) (now : Nat) :
    ¬ (handlePayload db p fx now).1.status = 500 := by
  unfold handlePayload
  split
  · simp
  · split
    · simp
    · split
      · simp
      · split
        · simp
        · simp

/-- Claim C10: a failing device-credential lookup (store error, not merely an
absent match) is answered 401 "Invalid device key" with no writes, exactly
like an unknown key; and the 500 "Internal server error" response arises
exactly when the body of a POST fails to parse, the only thrown exception in
the model — no store outcome produces a 500. -/
theorem C10_lookup_error_401_and_500_only_exception :
    (∀ (db : Db) (p : Payload) (fx : Fx) (now : Nat) (rs : List RawReading),
      p.device_key ≠ "" → p.readings = some rs → fx.deviceLookupErr = true →
      (handlePayload db p fx now).1.status = 401 ∧
      (handlePayload db p fx now).1.error = some "Invalid device key" ∧
      (handlePayload db p fx now).2.1 = db) ∧
    (∀ (db : Db) (req : Request) (fx : Fx) (now : Nat),
      (serve db req fx now).1.status = 500 ↔ req.method = "POST" ∧ req.body = none) := by
  constructor
  · intro db p fx now rs hk hrs herr
    simp [handlePayload, if_neg hk, hrs, herr]
  · intro db req fx now
    constructor
    · intro h5
      rw [serve] at h5
      by_cases hopt : req.method = "OPTIONS"
      · rw [if_pos hopt] at h5
        simp at h5
      · rw [if_neg hopt] at h5
        by_cases hpost : req.method = "POST"
        · rw [if_neg (not_not_intro hpost)] at h5
          cases hb : req.body with
          | none => exact ⟨hpost, rfl⟩
          | some p =>
            rw [hb] at h5
            exact absurd h5 (handlePayload_status_ne_500 db p fx now)
        · rw [if_pos hpost] at h5
          simp at h5
    · rintro ⟨hpost, hb⟩
      have h1 : ¬ req.method = "OPTIONS" := by rw [hpost]; decide
      rw [serve, if_neg h1, if_neg (not_not_intro hpost), hb]

/-- Claim C10 witness: a lookup error on a concrete valid request yields 401
with the store untouched, and a POST with an unparseable body is the 500
case. -/
theorem C10_witness :
    ((handlePayload dbOne ⟨"k", some []⟩ ⟨true, []⟩ 0).1.status = 401 ∧
     (handlePayload dbOne ⟨"k", some []⟩ ⟨true, []⟩ 0).1.error = some "Invalid device key" ∧
     (handlePayload dbOne ⟨"k", some []⟩ ⟨true, []⟩ 0).2.1 = dbOne) ∧
    ((serve dbOne ⟨"POST", none⟩ noFx 0).1.status = 500 ↔
      ("POST" : String) = "POST" ∧ (none : Option Payload) = none) :=
  ⟨C10_lookup_error_401_and_500_only_exception.1 dbOne ⟨"k", some []⟩ ⟨true, []⟩ 0 []
      (by decide) rfl rfl,
    C10_lookup_error_401_and_500_only_exception.2 dbOne ⟨"POST", none⟩ noFx 0⟩

/-- Claim C2, counterexample.  With no sensor row for (device 1, "temp") and a
sensor insert that fails with the uniqueness violation of a concurrent
first-sighting, the handler does NOT retry the lookup: its trace holds exactly
one sensor lookup, it inserts no reading for the entry, and the store is left
unchanged — the conflict is fatal for that entry (though not for the batch). -/
theorem C2_counterexample :
    processEntry dbOne 1 ⟨some "temp", some 21⟩ ⟨true, false⟩ 0 =
      (dbOne, 0, [Op.sensorLookup 1 "temp", Op.sensorInsert 1 "temp"]) ∧
    ¬ 2 ≤ ((processEntry dbOne 1 ⟨some "temp", some 21⟩ ⟨true, false⟩ 0).2.2.count
        (Op.sensorLookup 1 "temp")) := by
  decide

/-- Claim C2 (amended): when the sensor lookup finds no row and the sensor
insert then fails (for instance with a uniqueness violation raised by a
concurrent first-sighting), the handler logs and skips that entry — no second
lookup, no reading inserted for it, the store untouched by it — and
continues with the remaining entries of the batch, whose count is
unaffected. -/
theorem C2_amended_skip_on_conflict (db : Db) (devId : Nat) (name : String)
    (v : ℚ) (fx : EntryFx) (now : Nat) (rest : List RawReading) (fxs : List EntryFx)
    (hname : name ≠ "") (hfind : findSensor db devId name = none)
    (herr : fx.sensorInsertErr = true) :
    processEntry db devId ⟨some name, some v⟩ fx now =
      (db, 0, [Op.sensorLookup devId name, Op.sensorInsert devId name]) ∧
    (ingestLoop db devId (⟨some name, some v⟩ :: rest) (fx :: fxs) now).2.1 =
      (ingestLoop db devId rest fxs now).2.1 := by
  have hskip : processEntry db devId ⟨some name, some v⟩ fx now =
      (db, 0, [Op.sensorLookup devId name, Op.sensorInsert devId name]) := by
    simp [processEntry, hname, hfind, herr]
  exact ⟨hskip, by simp [ingestLoop, hskip]⟩

/-- Claim C2 witness: a concrete conflicting first-sighting is skipped and a
following batch entry is processed as if the conflicting entry were absent. -/
theorem C2_witness :
    processEntry dbOne 1 ⟨some "temp", some 21⟩ ⟨true, false⟩ 0 =
      (dbOne, 0, [Op.sensorLookup 1 "temp", Op.sensorInsert 1 "temp"]) ∧
    (ingestLoop dbOne 1 [⟨some "temp", some 21⟩, ⟨some "hum", some 3⟩]
        [⟨true, false⟩, noFail] 0).2.1 =
      (ingestLoop dbOne 1 [⟨some "hum", some 3⟩] [noFail] 0).2.1 :=
  C2_amended_skip_on_conflict dbOne 1 "temp" 21 ⟨true, false⟩ 0
    [⟨some "hum", some 3⟩] [noFail] (by decide) rfl rfl

/-! ## Traffic simulator (the SimulatorProvider context)

The provider holds a React state `simulators : Map<string, SimulatorState>`
updated copy-on-write, plus browser interval timers.  The embedding threads an
explicit world: the map (an association list with Map semantics), the set of
armed timer ids, the timer-id supply (browser interval ids are positive), and
a log of every reading submission with the route it took. -/

/-- Baseline of `generateValue` when no previous value exists: a type-specific
random range selected by `switch (type.toLowerCase())`, with `r` standing for
the `Math.random()` draw in [0, 1). -/
def baseline (ty : String) (r : ℚ) : ℚ :=
  match ty.toLower with
  | "temperature" => 20 + r * 10
  | "humidity" => 40 + r * 40
  | "pressure" => 1000 + r * 50
  | "light" => r * 1000
  | "co2" => 400 + r * 600
  | "voltage" => 3 + r * 2
  | _ => r * 100

/-- The value generator: previous value (or baseline) plus the symmetric
perturbation `(Math.random() - 0.5) * 2`, clamped to be non-negative by
`Math.max(0, ...)`.  `rBase` and `rVar` stand for the two random draws. -/
def generateValue (ty : String) (previousValue : Option ℚ) (rBase rVar : ℚ) : ℚ :=
  let baseValue := previousValue.getD (baseline ty rBase)
  let variation := (rVar - 1/2) * 2
  max 0 (baseValue + variation)

/-- Per-sensor entry of the running-state map. -/
structure SimulatorState where
  deviceId : String
  sensorId : String
  sensorName : String
  sensorType : String
  sensorUnit : String
  isRunning : Bool
  intervalId : Option Nat
  currentValue : ℚ
deriving DecidableEq, Repr

/-- Route a reading submission takes to the entity store. `directStoreInsert`
is what `sendReading` does: `supabase.from('readings').insert({...})`, a
direct client write to the readings table.  `ingestEndpoint` would be an HTTP
POST to the ingest function, the route real devices use. -/
inductive SubmitRoute where
  | directStoreInsert
  | ingestEndpoint
deriving DecidableEq, Repr

/-- One logged reading submission. -/
structure Submission where
  sensorId : String
  value : ℚ
  route : SubmitRoute
deriving DecidableEq, Repr

/-- Lookup with the semantics of `Map.prototype.get`. -/
def mapGet (m : List (String × SimulatorState)) (k : String) : Option SimulatorState :=
  (m.find? (fun p => p.1 == k)).map (fun p => p.2)

/-- Update with the semantics of `Map.prototype.set`: replace in place, or
append a new binding. -/
def mapSet (m : List (String × SimulatorState)) (k : String) (v : SimulatorState) :
    List (String × SimulatorState) :=
  match m with
  | [] => [(k, v)]
  | (k', v') :: rest => if k' == k then (k, v) :: rest else (k', v') :: mapSet rest k v

/-- Removal with the semantics of `Map.prototype.delete`. -/
def mapDelete (m : List (String × SimulatorState)) (k : String) :
    List (String × SimulatorState) :=
  m.filter (fun p => !(p.1 == k))

/-- World of the provider: the running-state map, the armed interval timers,
the id supply for `window.setInterval` (browser ids are positive, so the
supply starts at 1 and the truthiness test `if (sim?.intervalId)` coincides
with presence), and the submission log. -/
structure SimWorld where
  simulators : List (String × SimulatorState)
  armedTimers : List Nat
  nextTimerId : Nat
  submissions : List Submission
deriving DecidableEq, Repr

/-- World at provider mount: empty map, no timers, empty log. -/
def initialWorld : SimWorld := ⟨[], [], 1, []⟩

/-- `sendReading`: inserts the value directly into the readings table
(`supabase.from('readings').insert(...)`), logged here with its route. -/
def sendReading (w : SimWorld) (sensorId : String) (value : ℚ) : SimWorld :=
  { w with submissions := w.submissions ++ [⟨sensorId, value, SubmitRoute.directStoreInsert⟩] }

/-- `startSimulator`: a no-op when the map already holds a running entry for
the sensor; otherwise it generates an initial value, submits it immediately,
arms a recurring interval timer, and records the full entry in the map. -/
def startSimulator (w : SimWorld) (deviceId sensorId name ty unit : String)
    (rBase rVar : ℚ) : SimWorld :=
  if (mapGet w.simulators sensorId).elim false (fun s => s.isRunning) then w
  else
    let initialValue := generateValue ty none rBase rVar
    let w1 := sendReading w sensorId initialValue
    let intervalId := w1.nextTimerId
    let w2 := { w1 with armedTimers := w1.armedTimers ++ [intervalId],
                        nextTimerId := intervalId + 1 }
    let entry : SimulatorState :=
      ⟨deviceId, sensorId, name, ty, unit, true, some intervalId, initialValue⟩
    { w2 with simulators := mapSet w2.simulators sensorId entry }

/-- Body of the interval callback armed by `startSimulator` (the
`setSimulators(prev => ...)` updater): if the entry has been removed it
returns the map unchanged and submits nothing; otherwise it generates the
next value from the current one, submits it, and stores it back.  The type
tag was captured by the callback closure at start. -/
def tick (w : SimWorld) (sensorId ty : String) (rVar : ℚ) : SimWorld :=
  match mapGet w.simulators sensorId with
  | none => w
  | some current =>
    let newValue := generateValue ty (some current.currentValue) 0 rVar
    let w1 := sendReading w sensorId newValue
    let updated := { current with currentValue := newValue }
    { w1 with simulators := mapSet w1.simulators sensorId updated }

/-- `stopSimulator`: clears the interval if the entry holds one, then deletes
the entry from the map. -/
def stopSimulator (w : SimWorld) (sensorId : String) : SimWorld :=
  match mapGet w.simulators sensorId with
  | some s =>
    match s.intervalId with
    | some tid =>
      { w with armedTimers := w.armedTimers.erase tid,
               simulators := mapDelete w.simulators sensorId }
    | none => { w with simulators := mapDelete w.simulators sensorId }
  | none => { w with simulators := mapDelete w.simulators sensorId }

/-- Effect of `if (sim.intervalId) clearInterval(sim.intervalId)` for one map
entry on a set of armed timers. -/
def clearEntryTimer (ts : List Nat) (p : String × SimulatorState) : List Nat :=
  match p.2.intervalId with
  | some tid => ts.erase tid
  | none => ts

/-- Cleanup body of the teardown effect: for every entry of the map it was
given, clear its interval. -/
def teardownCleanup (captured : List (String × SimulatorState)) (w : SimWorld) :
    SimWorld :=
  { w with armedTimers := captured.foldl clearEntryTimer w.armedTimers }

/-- Global teardown as the source registers it: the cleanup effect has an
empty dependency array, so its closure captures the `simulators` binding of
the first render — the initial, empty map — not the map current at unmount. -/
def providerTeardown (w : SimWorld) : SimWorld :=
  teardownCleanup initialWorld.simulators w

/-! ## Map lemmas -/

/-- Deleting a key that is not bound leaves the map unchanged. -/
theorem mapDelete_absent (m : List (String × SimulatorState)) (k : String)
    (h : mapGet m k = none) : mapDelete m k = m := by
  unfold mapDelete
  rw [List.filter_eq_self]
  intro p hp
  unfold mapGet at h
  rw [Option.map_eq_none'] at h
  have := List.find?_eq_none.mp h p hp
  simpa using this

/-- After a delete the key is unbound. -/
theorem mapGet_mapDelete (m : List (String × SimulatorState)) (k : String) :
    mapGet (mapDelete m k) k = none := by
  unfold mapGet mapDelete
  rw [Option.map_eq_none', List.find?_eq_none]
  intro p hp
  have := (List.mem_filter.mp hp).2
  simpa using this

/-- Stopping never touches the submission log. -/
theorem stopSimulator_submissions (w : SimWorld) (sid : String) :
    (stopSimulator w sid).submissions = w.submissions := by
  unfold stopSimulator
  cases hm : mapGet w.simulators sid with
  | none => rfl
  | some s =>
    obtain ⟨d1, s1, n1, t1, u1, r1, iid, cv⟩ := s
    cases iid <;> rfl

/-- Starting either leaves the log alone (already running) or appends exactly
the initial reading, routed as a direct store insert. -/
theorem startSimulator_submissions (w : SimWorld) (d sid name ty u : String)
    (rb rv : ℚ) :
    (startSimulator w d sid name ty u rb rv).submissions = w.submissions ∨
    (startSimulator w d sid name ty u rb rv).submissions =
      w.submissions ++ [⟨sid, generateValue ty none rb rv, SubmitRoute.directStoreInsert⟩] := by
  unfold startSimulator
  split
  · exact Or.inl rfl
  · exact Or.inr rfl

/-- A tick either leaves the log alone (entry removed) or appends exactly one
reading, routed as a direct store insert. -/
theorem tick_submissions (w : SimWorld) (sid ty : String) (rv : ℚ) :
    (tick w sid ty rv).submissions = w.submissions ∨
    ∃ v, (tick w sid ty rv).submissions =
      w.submissions ++ [⟨sid, v, SubmitRoute.directStoreInsert⟩] := by
  unfold tick
  cases hm : mapGet w.simulators sid with
  | none => exact Or.inl rfl
  | some cur => exact Or.inr ⟨_, rfl⟩

/-! ## Claims C6 and C7: start/stop idempotence and tick-after-stop -/

/-- Claim C6: starting an already-running sensor is a no-op — the same world
comes back, so the map entry is untouched and no second timer is armed — and
stopping a sensor that is absent from the map (stopped or never started) is a
no-op as well; both operations are total functions, so neither throws. -/
theorem C6_start_stop_idempotent (w : SimWorld) (d sid name ty u sid2 : String)
    (rb rv : ℚ)
    (hrun : (mapGet w.simulators sid).elim false (fun s => s.isRunning) = true)
    (habs : mapGet w.simulators sid2 = none) :
    startSimulator w d sid name ty u rb rv = w ∧ stopSimulator w sid2 = w := by
  constructor
  · simp [startSimulator, hrun]
  · unfold stopSimulator
    rw [habs, mapDelete_absent w.simulators sid2 habs]

/-- Claim C6 witness: after starting sensor "s1", starting it again returns
the identical world, and stopping the never-started "s2" does too. -/
theorem C6_witness :
    startSimulator (startSimulator initialWorld "d1" "s1" "humidity" "humidity" "pct" (1/2) (1/2))
        "d1" "s1" "humidity" "humidity" "pct" (1/4) (3/4) =
      startSimulator initialWorld "d1" "s1" "humidity" "humidity" "pct" (1/2) (1/2) ∧
    stopSimulator (startSimulator initialWorld "d1" "s1" "humidity" "humidity" "pct" (1/2) (1/2)) "s2" =
      startSimulator initialWorld "d1" "s1" "humidity" "humidity" "pct" (1/2) (1/2) :=
  C6_start_stop_idempotent
    (startSimulator initialWorld "d1" "s1" "humidity" "humidity" "pct" (1/2) (1/2))
    "d1" "s1" "humidity" "humidity" "pct" "s2" (1/4) (3/4) (by decide) (by decide)

/-- Claim C7: a tick whose sensor entry has been removed from the map is a
silent no-op — the whole world is unchanged, so the map keeps no trace and no
reading is submitted, and in particular the removed entry is never
re-inserted; and stop does remove the entry entirely, so the tick of a
just-stopped sensor finds it absent. -/
theorem C7_tick_after_stop_noop (w : SimWorld) (sid ty : String) (rv : ℚ) :
    (mapGet w.simulators sid = none → tick w sid ty rv = w) ∧
    (∀ w0 : SimWorld, mapGet (stopSimulator w0 sid).simulators sid = none) := by
  constructor
  · intro h
    unfold tick
    rw [h]
  · intro w0
    unfold stopSimulator
    cases hm : mapGet w0.simulators sid with
    | none => exact mapGet_mapDelete _ sid
    | some s =>
      obtain ⟨d1, s1, n1, t1, u1, r1, iid, cv⟩ := s
      cases iid <;> exact mapGet_mapDelete _ sid

/-- Claim C7 witness: in the empty world a tick for "s1" changes nothing, and
stopping "s1" in any world leaves its entry absent. -/
theorem C7_witness :
    tick initialWorld "s1" "humidity" (1/2) = initialWorld ∧
    mapGet (stopSimulator initialWorld "s1").simulators "s1" = none :=
  ⟨(C7_tick_after_stop_noop initialWorld "s1" "humidity" (1/2)).1 rfl,
    (C7_tick_after_stop_noop initialWorld "s1" "humidity" (1/2)).2 initialWorld⟩

/-! ## Claim C4: global teardown -/

/-- World reached by mounting the provider and starting one simulated sensor:
sensor "s1" is running with interval timer 1 armed. -/
def worldOneRunning : SimWorld :=
  startSimulator initialWorld "d1" "s1" "temp" "temp" "c" (1/2) (1/2)

/-- Claim C4 fails on the code: sensor "s1" is in the running-state map with
interval timer 1, timer 1 is armed, yet after global teardown timer 1 is
still armed — the cleanup closure captured the empty first-render map, so it
cancelled nothing and the timer outlives the session. -/
theorem C4_orphaned_timer :
    (mapGet worldOneRunning.simulators "s1").map (fun s => s.intervalId) =
      some (some 1) ∧
    worldOneRunning.armedTimers = [1] ∧
    (providerTeardown worldOneRunning).armedTimers = [1] := by
  decide

/-! ## Claim C3: the route simulator readings take -/

/-- Claim C3, counterexample.  Starting one simulated sensor submits its
initial reading, and that submission does not go through the Ingestion
Endpoint: it is a direct client write to the readings table. -/
theorem C3_counterexample :
    ¬ ∀ s ∈ (startSimulator initialWorld "d1" "s1" "humidity" "humidity" "pct"
        (1/2) (1/2)).submissions, s.route = SubmitRoute.ingestEndpoint := by
  decide

/-- The observable actions on the provider: a start, a stop, or the firing of
an armed interval callback (whose type tag was captured at start). -/
inductive SimEvent where
  | start (deviceId sensorId name ty unitLabel : String) (rBase rVar : ℚ)
  | stop (sensorId : String)
  | tickFire (sensorId ty : String) (rVar : ℚ)

/-- One event applied to the world. -/
def stepEvent (w : SimWorld) : SimEvent → SimWorld
  | SimEvent.start d sid name ty u rb rv => startSimulator w d sid name ty u rb rv
  | SimEvent.stop sid => stopSimulator w sid
  | SimEvent.tickFire sid ty rv => tick w sid ty rv

/-- A whole session: events applied in order from a starting world. -/
def runEvents (w : SimWorld) (es : List SimEvent) : SimWorld :=
  es.foldl stepEvent w

/-- Every event preserves the invariant that all logged submissions went
through the direct store insert of `sendReading`. -/
theorem stepEvent_route (w : SimWorld) (e : SimEvent)
    (h : ∀ s ∈ w.submissions, s.route = SubmitRoute.directStoreInsert) :
    ∀ s ∈ (stepEvent w e).submissions, s.route = SubmitRoute.directStoreInsert := by
  intro s hs
  cases e with
  | start d sid name ty u rb rv =>
    simp only [stepEvent] at hs
    rcases startSimulator_submissions w d sid name ty u rb rv with heq | heq <;>
      rw [heq] at hs
    · exact h s hs
    · rcases List.mem_append.mp hs with hs | hs
      · exact h s hs
      · rw [List.mem_singleton.mp hs]
  | stop sid =>
    simp only [stepEvent] at hs
    rw [stopSimulator_submissions] at hs
    exact h s hs
  | tickFire sid ty rv =>
    simp only [stepEvent] at hs
    rcases tick_submissions w sid ty rv with heq | ⟨v, heq⟩ <;> rw [heq] at hs
    · exact h s hs
    · rcases List.mem_append.mp hs with hs | hs
      · exact h s hs
      · rw [List.mem_singleton.mp hs]

/-- The invariant holds after any session from any world that satisfies it. -/
theorem runEvents_route (es : List SimEvent) (w : SimWorld)
    (hw : ∀ s ∈ w.submissions, s.route = SubmitRoute.directStoreInsert) :
    ∀ s ∈ (runEvents w es).submissions, s.route = SubmitRoute.directStoreInsert := by
  induction es generalizing w with
  | nil => exact hw
  | cons e es ih => exact ih (stepEvent w e) (stepEvent_route w e hw)

/-- Claim C3 (amended): every reading the simulator produces over any session
— the initial value of each start and each tick value — is submitted by
`sendReading` as a direct client insert into the readings table of the entity
store; none is submitted through the Ingestion Endpoint. -/
theorem C3_amended_single_route (es : List SimEvent) (s : Submission)
    (h : s ∈ (runEvents initialWorld es).submissions) :
    s.route = SubmitRoute.directStoreInsert :=
  runEvents_route es initialWorld (by intro s hs; simp [initialWorld] at hs) s h

/-- Claim C3 witness: the initial submission of a started "humidity" sensor
is in the session log and takes the direct store insert route. -/
theorem C3_witness :
    (⟨"s1", generateValue "humidity" none (1/2) (1/2),
        SubmitRoute.directStoreInsert⟩ : Submission).route =
      SubmitRoute.directStoreInsert :=
  C3_amended_single_route
    [SimEvent.start "d1" "s1" "humidity" "humidity" "pct" (1/2) (1/2)]
    ⟨"s1", generateValue "humidity" none (1/2) (1/2), SubmitRoute.directStoreInsert⟩
    (List.mem_singleton.mpr rfl)

/-! ## Claim C9: generated values are non-negative and step-bounded -/

/-- Every generated value is clamped non-negative by `Math.max(0, ...)`. -/
theorem generateValue_nonneg (ty : String) (prev : Option ℚ) (rb rv : ℚ) :
    0 ≤ generateValue ty prev rb rv :=
  le_max_left 0 _

/-- One tick moves the value by at most 1: the perturbation
`(Math.random() - 0.5) * 2` lies in [-1, 1), and when the clamp fires the
previous value itself was below 1. -/
theorem generateValue_step_bound (ty : String) (p rb rv : ℚ)
    (hp : 0 ≤ p) (h0 : 0 ≤ rv) (h1 : rv < 1) :
    |generateValue ty (some p) rb rv - p| ≤ 1 := by
  unfold generateValue
  simp only [Option.getD_some]
  set v := (rv - 1/2) * 2 with hv
  have hv1 : -1 ≤ v := by rw [hv]; linarith
  have hv2 : v ≤ 1 := by rw [hv]; linarith
  rcases le_or_lt 0 (p + v) with h | h
  · rw [max_eq_right h, abs_le]
    constructor <;> linarith
  · rw [max_eq_left h.le, abs_le]
    constructor <;> linarith

/-- Values of the successive ticks of one sensor: each tick feeds the value it
generated back as the baseline of the next (`currentValue` in the map), with
`r.1` and `r.2` the random draws of that tick. -/
def simTicks (ty : String) : ℚ → List (ℚ × ℚ) → List ℚ
  | _, [] => []
  | v, r :: rest =>
    let v2 := generateValue ty (some v) r.1 r.2
    v2 :: simTicks ty v2 rest

/-- The whole value sequence of a run: the initial value generated at start
(from the type baseline) followed by one value per tick. -/
def simValues (ty : String) (r0 : ℚ × ℚ) (rs : List (ℚ × ℚ)) : List ℚ :=
  let v0 := generateValue ty none r0.1 r0.2
  v0 :: simTicks ty v0 rs

/-- A run makes one value per tick. -/
theorem simTicks_length (ty : String) (rs : List (ℚ × ℚ)) (v : ℚ) :
    (simTicks ty v rs).length = rs.length := by
  induction rs generalizing v with
  | nil => rfl
  | cons r rest ih => simp [simTicks, ih]

/-- Every tick value is non-negative. -/
theorem simTicks_nonneg (ty : String) (rs : List (ℚ × ℚ)) (v : ℚ) :
    ∀ x ∈ simTicks ty v rs, 0 ≤ x := by
  induction rs generalizing v with
  | nil => simp [simTicks]
  | cons r rest ih =>
    intro x hx
    simp only [simTicks, List.mem_cons] at hx
    rcases hx with hx | hx
    · rw [hx]; exact generateValue_nonneg ty (some v) r.1 r.2
    · exact ih _ x hx

/-- Adjacent values of a run differ by at most 1 when the variation draws are
in [0, 1). -/
theorem simTicks_chain (ty : String) (rs : List (ℚ × ℚ)) (v : ℚ) (hv : 0 ≤ v)
    (hrs : ∀ r ∈ rs, 0 ≤ r.2 ∧ r.2 < 1) :
    List.Chain' (fun a b => |b - a| ≤ 1) (v :: simTicks ty v rs) := by
  induction rs generalizing v with
  | nil => simp [simTicks]
  | cons r rest ih =>
    simp only [simTicks]
    rw [List.chain'_cons]
    obtain ⟨h0, h1⟩ := hrs r (List.mem_cons_self r rest)
    refine ⟨generateValue_step_bound ty v r.1 r.2 hv h0 h1, ?_⟩
    exact ih _ (generateValue_nonneg ty (some v) r.1 r.2)
      (fun q hq => hrs q (List.mem_cons_of_mem r hq))

/-- Claim C9: provided every tick's variation draw is in [0, 1) — the range
of `Math.random()` — a run of 1 initial value plus k ticks yields k+1 values,
all non-negative, each within 1 unit of its predecessor. -/
theorem C9_values_nonneg_bounded (ty : String) (r0 : ℚ × ℚ) (rs : List (ℚ × ℚ))
    (hrs : ∀ r ∈ rs, 0 ≤ r.2 ∧ r.2 < 1) :
    (simValues ty r0 rs).length = rs.length + 1 ∧
    (∀ x ∈ simValues ty r0 rs, 0 ≤ x) ∧
    List.Chain' (fun a b => |b - a| ≤ 1) (simValues ty r0 rs) := by
  refine ⟨?_, ?_, ?_⟩
  · simp [simValues, simTicks_length]
  · intro x hx
    simp only [simValues, List.mem_cons] at hx
    rcases hx with hx | hx
    · rw [hx]; exact generateValue_nonneg ty none r0.1 r0.2
    · exact simTicks_nonneg ty rs _ x hx
  · exact simTicks_chain ty rs _ (generateValue_nonneg ty none r0.1 r0.2) hrs

/-- Claim C9 witness: a "humidity" run of 1 initial value and 3 ticks yields
4 values, all non-negative, each within 1 unit of its predecessor. -/
theorem C9_witness :
    (simValues "humidity" (0, 0) [(0, 0), (0, 0), (0, 0)]).length = 3 + 1 ∧
    (∀ x ∈ simValues "humidity" (0, 0) [(0, 0), (0, 0), (0, 0)], 0 ≤ x) ∧
    List.Chain' (fun a b => |b - a| ≤ 1)
      (simValues "humidity" (0, 0) [(0, 0), (0, 0), (0, 0)]) :=
  C9_values_nonneg_bounded "humidity" (0, 0) [(0, 0), (0, 0), (0, 0)]
    (by
      intro r hr
      have hr0 : r = ((0 : ℚ), (0 : ℚ)) := by simpa using hr
      subst hr0
      norm_num)

end SensorBoard
